import Mathlib

/-!
# Lefty Taskbar Toggle: registry interception and original-value memory

A shallow embedding of `src/mods/lefty-taskbar-toggle.wh.cpp`.

* The module's globals (`g_settings.forceLeft`, `g_originalValue`,
  `g_originalSaved`, `g_advancedKeys`) together with the part of the outside
  world the module acts on (the stored `TaskbarAl` value, the number of
  `WM_SETTINGCHANGE` broadcasts, which advapi32 entry points are currently
  redirected to the module's hooks) form one explicit `State`.
* Nullable C pointers are `Option`s; the pointee is the payload.
* A byte pointer is modelled by the memory reachable from it (`Mem`).
* Each hook receives the outcome of the call to its `p..._Original`
  trampoline as an argument and post-processes it as the source does.
* Results of operating-system calls the module cannot control (handles handed
  out, status codes) are explicit inputs (`SaveEnv`, `WriteEnv`, ...).
* The mutex `g_keysMutex` is not modelled: the embedding is sequential.
-/

namespace LeftyTaskbar

/-! ## Windows types and constants -/

/-- Registry handle identifier. -/
abbrev HKEY := Nat

/-- Unsigned 32-bit quantity. -/
abbrev DWORD := Nat

/-- Status code returned by the registry API. -/
abbrev LSTATUS := Int

/-- Non-null wide string; a nullable `const wchar_t*` is an `Option WStr`. -/
abbrev WStr := List Char

/-- Memory reachable from a byte pointer: the byte found at each offset. -/
abbrev Mem := Nat → Nat

def ERROR_SUCCESS : LSTATUS := 0

def ERROR_FILE_NOT_FOUND : LSTATUS := 2

def ERROR_ACCESS_DENIED : LSTATUS := 5

def ERROR_INVALID_PARAMETER : LSTATUS := 87

def ERROR_MORE_DATA : LSTATUS := 234

def REG_DWORD : DWORD := 4

/-- Predefined root handle of the current user's hive. -/
def HKEY_CURRENT_USER : HKEY := 0x80000001

def kAdvancedSubKey : WStr :=
  "Software\\Microsoft\\Windows\\CurrentVersion\\Explorer\\Advanced".toList

def kTaskbarAlValue : WStr := "TaskbarAl".toList

/-- Little-endian 32-bit load through a `DWORD*`. -/
def readDword (m : Mem) : DWORD :=
  m 0 + 256 * m 1 + 65536 * m 2 + 16777216 * m 3

/-- Little-endian 32-bit store through a `DWORD*`. -/
def writeDword (m : Mem) (v : DWORD) : Mem :=
  fun i => if i < 4 then (v / 256 ^ i) % 256 else m i

/-- The four bytes of a `DWORD`, as handed to `RegSetValueExW`. -/
def dwordBytes (v : DWORD) : List Nat :=
  [v % 256, v / 256 % 256, v / 65536 % 256, v / 16777216 % 256]

/-! ## Data model -/

/-- A registry value: type tag and raw data bytes. -/
structure RegValue where
  type : DWORD
  data : List Nat
deriving DecidableEq, Repr

/-- Which of the four advapi32 entry points are redirected to the hooks. -/
structure Hooks where
  onOpen : Bool
  onQuery : Bool
  onGet : Bool
  onClose : Bool
deriving DecidableEq, Repr

/-- Module globals and the outside world they act on. -/
structure State where
  /-- Field `g_settings.forceLeft`. -/
  forceLeft : Bool
  g_originalValue : DWORD
  g_originalSaved : Bool
  g_advancedKeys : Finset HKEY
  /-- Entry points on which `Wh_SetFunctionHook` has taken effect. -/
  hooks : Hooks
  /-- Value `TaskbarAl` stored under `HKCU\...\Explorer\Advanced`, if present. -/
  taskbarAl : Option RegValue
  /-- Number of `WM_SETTINGCHANGE` broadcasts sent so far. -/
  broadcasts : Nat

/-- State of a freshly loaded module (static initialisers) over a given registry. -/
def freshState (stored : Option RegValue) : State :=
  { forceLeft := false
    g_originalValue := 1
    g_originalSaved := false
    g_advancedKeys := ∅
    hooks := ⟨false, false, false, false⟩
    taskbarAl := stored
    broadcasts := 0 }

/-- The out-parameters `lpType`, `lpData`, `lpcbData` of a read; `none` is a null pointer. -/
structure ReadBufs where
  lpType : Option DWORD
  lpData : Option Mem
  lpcbData : Option DWORD

/-- Outcome of a read: returned status and the out-parameters after the call. -/
structure ReadResult where
  status : LSTATUS
  out : ReadBufs

/-- Outcome of an open: returned status and `*phkResult` (`none`: null `phkResult`). -/
structure OpenResult where
  status : LSTATUS
  phkResult : Option HKEY

/-! ## Helpers of the source -/

/-- Lower-casing applied by `_wcsicmp` to each character (`A`-`Z` to `a`-`z`,
as in the default locale). -/
def towlower (c : Char) : Char := c.toLower

def IEquals (a b : WStr) : Bool :=
  a.map towlower == b.map towlower

def PathEqualsAdvancedHKCU (root : HKEY) (subKey : Option WStr) : Bool :=
  root == HKEY_CURRENT_USER &&
    match subKey with
    | some k => IEquals k kAdvancedSubKey
    | none => false

def TrackAdvancedKey (s : State) (hKey : HKEY) : State :=
  { s with g_advancedKeys := insert hKey s.g_advancedKeys }

def UntrackKey (s : State) (hKey : HKEY) : State :=
  { s with g_advancedKeys := s.g_advancedKeys.erase hKey }

def IsAdvancedKey (s : State) (hKey : HKEY) : Bool :=
  decide (hKey ∈ s.g_advancedKeys)

def OverrideToLeftIfNeeded (b : ReadBufs) : ReadBufs :=
  match b.lpType, b.lpData, b.lpcbData with
  | some ty, some data, some cb =>
    if ty = REG_DWORD ∧ cb ≥ 4 then
      if readDword data ≠ 0 then { b with lpData := some (writeDword data 0) } else b
    else b
  | _, _, _ => b

/-! ## Hooks -/

/-- Hook of `RegOpenKeyExW`; `orig` is the outcome of `pRegOpenKeyExW_Original`. -/
def RegOpenKeyExW_Hook (s : State) (hKey : HKEY) (lpSubKey : Option WStr)
    (orig : OpenResult) : LSTATUS × State :=
  match orig.phkResult with
  | some h =>
    if s.forceLeft && orig.status == ERROR_SUCCESS && PathEqualsAdvancedHKCU hKey lpSubKey then
      (orig.status, TrackAdvancedKey s h)
    else (orig.status, s)
  | none => (orig.status, s)

/-- Hook of `RegQueryValueExW`; `orig` is the outcome of `pRegQueryValueExW_Original`. -/
def RegQueryValueExW_Hook (s : State) (hKey : HKEY) (lpValueName : Option WStr)
    (orig : ReadResult) : ReadResult :=
  if s.forceLeft && orig.status == ERROR_SUCCESS && IsAdvancedKey s hKey &&
      (match lpValueName with
       | some n => IEquals n kTaskbarAlValue
       | none => false) then
    { status := orig.status, out := OverrideToLeftIfNeeded orig.out }
  else orig

/-- Hook of `RegGetValueW`; `orig` is the outcome of `pRegGetValueW_Original`. -/
def RegGetValueW_Hook (s : State) (hkey : HKEY) (lpSubKey lpValue : Option WStr)
    (orig : ReadResult) : ReadResult :=
  if s.forceLeft && orig.status == ERROR_SUCCESS && hkey == HKEY_CURRENT_USER &&
      (match lpSubKey with
       | some k => IEquals k kAdvancedSubKey
       | none => false) &&
      (match lpValue with
       | some n => IEquals n kTaskbarAlValue
       | none => false) then
    { status := orig.status, out := OverrideToLeftIfNeeded orig.out }
  else orig

/-- Hook of `RegCloseKey`; `orig` is the status returned by `pRegCloseKey_Original`. -/
def RegCloseKey_Hook (s : State) (hKey : HKEY) (orig : LSTATUS) : LSTATUS × State :=
  if s.forceLeft && IsAdvancedKey s hKey then (orig, UntrackKey s hKey) else (orig, s)

/-! ## Entry points as seen by callers inside the process

`Wh_SetFunctionHook` redirects the advapi32 entry point itself, so a call to
`RegOpenKeyExW`, `RegQueryValueExW`, `RegGetValueW` or `RegCloseKey` made by
name (as `SaveOriginalIfNeeded` and `WriteTaskbarAlignment` do) runs the hook
once it is installed, and the original otherwise. -/

def RegOpenKeyExW (s : State) (hKey : HKEY) (lpSubKey : Option WStr)
    (orig : OpenResult) : LSTATUS × State :=
  if s.hooks.onOpen then RegOpenKeyExW_Hook s hKey lpSubKey orig else (orig.status, s)

def RegQueryValueExW (s : State) (hKey : HKEY) (lpValueName : Option WStr)
    (orig : ReadResult) : ReadResult :=
  if s.hooks.onQuery then RegQueryValueExW_Hook s hKey lpValueName orig else orig

def RegGetValueW (s : State) (hkey : HKEY) (lpSubKey lpValue : Option WStr)
    (orig : ReadResult) : ReadResult :=
  if s.hooks.onGet then RegGetValueW_Hook s hkey lpSubKey lpValue orig else orig

def RegCloseKey (s : State) (hKey : HKEY) (orig : LSTATUS) : LSTATUS × State :=
  if s.hooks.onClose then RegCloseKey_Hook s hKey orig else (orig, s)

/-! ## The registry under interception

The registry API is an external collaborator. Only its behaviour on the single
value `TaskbarAl` of the Advanced key is modelled; whether a call fails is an
input. -/

/-- Bytes of a stored value copied to the start of the caller's buffer. -/
def copyBytes (data : List Nat) (m : Mem) : Mem :=
  fun i => if i < data.length then data.getD i 0 else m i

/-- Unhooked read of the value `TaskbarAl` of the Advanced key
(`RegQueryValueExW` on an open handle; `RegGetValueW` without type
restriction): a missing value or a failing read leaves the buffers untouched;
otherwise type and size are reported and the data is copied when the buffer is
large enough. -/
def osQueryValue (readFails : Bool) (stored : Option RegValue) (b : ReadBufs) : ReadResult :=
  if readFails then ⟨ERROR_ACCESS_DENIED, b⟩ else
  match stored with
  | none => ⟨ERROR_FILE_NOT_FOUND, b⟩
  | some v =>
    let ty := b.lpType.map (fun _ => v.type)
    match b.lpData, b.lpcbData with
    | some m, some cb =>
      if v.data.length ≤ cb then
        ⟨ERROR_SUCCESS, ⟨ty, some (copyBytes v.data m), some v.data.length⟩⟩
      else ⟨ERROR_MORE_DATA, ⟨ty, some m, some v.data.length⟩⟩
    | none, some _ => ⟨ERROR_SUCCESS, ⟨ty, none, some v.data.length⟩⟩
    | some m, none => ⟨ERROR_INVALID_PARAMETER, ⟨b.lpType, some m, none⟩⟩
    | none, none => ⟨ERROR_SUCCESS, ⟨ty, none, none⟩⟩

/-- Unhooked `RegSetValueExW` of `TaskbarAl`: stores the value when it succeeds. -/
def osSetValue (status : LSTATUS) (v : RegValue) (s : State) : State :=
  if status = ERROR_SUCCESS then { s with taskbarAl := some v } else s

/-! ## Original-value memory and write-and-propagate -/

/-- Outcomes of the system calls made by `SaveOriginalIfNeeded`. -/
structure SaveEnv where
  /-- Status of the original `RegOpenKeyExW`. -/
  openStatus : LSTATUS
  /-- Handle placed in the local `hKey`. -/
  hKey : HKEY
  /-- Whether the original `RegQueryValueExW` fails although the value may exist. -/
  readFails : Bool
  /-- Status of the original `RegCloseKey`. -/
  closeStatus : LSTATUS

def SaveOriginalIfNeeded (e : SaveEnv) (s : State) : State :=
  if s.g_originalSaved then s else
  let o := RegOpenKeyExW s HKEY_CURRENT_USER (some kAdvancedSubKey) ⟨e.openStatus, some e.hKey⟩
  if o.1 = ERROR_SUCCESS then
    let r := RegQueryValueExW o.2 e.hKey (some kTaskbarAlValue)
      (osQueryValue e.readFails o.2.taskbarAl
        ⟨some REG_DWORD, some (writeDword (fun _ => 0) 1), some 4⟩)
    let s2 :=
      if r.status = ERROR_SUCCESS ∧ r.out.lpType = some REG_DWORD then
        { o.2 with
          g_originalValue := (match r.out.lpData with
            | some m => readDword m
            | none => 1)
          g_originalSaved := true }
      else o.2
    (RegCloseKey s2 e.hKey e.closeStatus).2
  else o.2

def RefreshTaskbarNow (s : State) : State :=
  { s with broadcasts := s.broadcasts + 1 }

/-- Outcomes of the system calls made by `WriteTaskbarAlignment`. -/
structure WriteEnv where
  /-- Status of `RegCreateKeyExW`. -/
  createStatus : LSTATUS
  /-- Handle placed in the local `hKey`. -/
  hKey : HKEY
  /-- Status of `RegSetValueExW`. -/
  setStatus : LSTATUS
  /-- Status of the original `RegCloseKey`. -/
  closeStatus : LSTATUS

def WriteTaskbarAlignment (e : WriteEnv) (val : DWORD) (s : State) : State :=
  if e.createStatus = ERROR_SUCCESS then
    let s1 := osSetValue e.setStatus ⟨REG_DWORD, dwordBytes val⟩ s
    let s2 := (RegCloseKey s1 e.hKey e.closeStatus).2
    RefreshTaskbarNow s2
  else s

/-! ## Lifecycle -/

/-- Reads the setting; `setting` is the result of `Wh_GetIntSetting(L"forceLeft")`. -/
def LoadSettings (setting : Int) (s : State) : State :=
  { s with forceLeft := decide (setting ≠ 0) }

/-- Outcomes of the external calls made by `Wh_ModInit`. -/
structure InitEnv where
  setting : Int
  save : SaveEnv
  write : WriteEnv
  /-- Whether advapi32.dll was located. -/
  hAdvapi : Bool
  /-- Entry points on which `Wh_SetFunctionHook` takes effect. -/
  installed : Hooks

/-- Module load; the source always returns `TRUE`. -/
def Wh_ModInit (e : InitEnv) (s : State) : State :=
  let s1 := LoadSettings e.setting s
  let s2 := SaveOriginalIfNeeded e.save s1
  let s3 :=
    if s2.forceLeft then WriteTaskbarAlignment e.write 0 s2
    else WriteTaskbarAlignment e.write s2.g_originalValue s2
  if e.hAdvapi then { s3 with hooks := e.installed } else s3

def Wh_ModUninit (e : WriteEnv) (s : State) : State :=
  if s.g_originalSaved then WriteTaskbarAlignment e s.g_originalValue s else s

/-- Outcomes of the external calls made by `Wh_ModSettingsChanged`. -/
structure SettingsEnv where
  setting : Int
  save : SaveEnv
  write : WriteEnv

def Wh_ModSettingsChanged (e : SettingsEnv) (s : State) : State :=
  let s1 := LoadSettings e.setting s
  if s1.forceLeft then
    WriteTaskbarAlignment e.write 0 (SaveOriginalIfNeeded e.save s1)
  else
    if s1.g_originalSaved then WriteTaskbarAlignment e.write s1.g_originalValue s1
    else s1

/-- Everything that can happen to the module state: the operations of the
module, calls of the four hooks, and writes to the registry by others. -/
inductive Event where
  | saveOriginal (e : SaveEnv)
  | writeAlignment (e : WriteEnv) (val : DWORD)
  | modInit (e : InitEnv)
  | settingsChanged (e : SettingsEnv)
  | modUninit (e : WriteEnv)
  | openHook (hKey : HKEY) (lpSubKey : Option WStr) (orig : OpenResult)
  | queryHook (hKey : HKEY) (lpValueName : Option WStr) (orig : ReadResult)
  | getHook (hkey : HKEY) (lpSubKey lpValue : Option WStr) (orig : ReadResult)
  | closeHook (hKey : HKEY) (orig : LSTATUS)
  | externalWrite (stored : Option RegValue)

/-- State after one event; the read hooks only post-process their result. -/
def step (s : State) : Event → State
  | .saveOriginal e => SaveOriginalIfNeeded e s
  | .writeAlignment e val => WriteTaskbarAlignment e val s
  | .modInit e => Wh_ModInit e s
  | .settingsChanged e => Wh_ModSettingsChanged e s
  | .modUninit e => Wh_ModUninit e s
  | .openHook hKey lpSubKey orig => (RegOpenKeyExW_Hook s hKey lpSubKey orig).2
  | .queryHook _ _ _ => s
  | .getHook _ _ _ _ => s
  | .closeHook hKey orig => (RegCloseKey_Hook s hKey orig).2
  | .externalWrite stored => { s with taskbarAl := stored }

/-- State after a sequence of events. -/
def run (evs : List Event) (s : State) : State :=
  evs.foldl step s


/-! ## Concrete scenarios -/

/-- Every system call of `SaveOriginalIfNeeded` succeeds; the open yields handle 100. -/
def saveOk : SaveEnv := ⟨ERROR_SUCCESS, 100, false, ERROR_SUCCESS⟩

/-- Every system call of `WriteTaskbarAlignment` succeeds; the create yields handle 200. -/
def writeOk : WriteEnv := ⟨ERROR_SUCCESS, 200, ERROR_SUCCESS, ERROR_SUCCESS⟩

/-- All four hooks installed. -/
def allHooks : Hooks := ⟨true, true, true, true⟩

/-- A caller's zeroed buffer with type, data and length pointers, four bytes long. -/
def dwordBufs : ReadBufs := ⟨some 0, some (fun _ => 0), some 4⟩

/-- An original read that succeeded with a four-byte `REG_DWORD` holding `v`. -/
def dwordRead (v : DWORD) : ReadResult :=
  ⟨ERROR_SUCCESS, ⟨some REG_DWORD, some (writeDword (fun _ => 0) v), some 4⟩⟩

/-- Module loaded with the feature on, after which another writer stores `v`. -/
def enabledWith (v : RegValue) : State :=
  run [.modInit ⟨1, saveOk, writeOk, true, allHooks⟩, .externalWrite (some v)]
    (freshState (some ⟨REG_DWORD, dwordBytes 1⟩))

/-- Module loaded with the feature on, the Advanced key opened through the hook
as handle 5 (and so tracked), after which another writer stores `v`. -/
def enabledOpen (v : RegValue) : State :=
  run [.modInit ⟨1, saveOk, writeOk, true, allHooks⟩,
       .openHook HKEY_CURRENT_USER (some kAdvancedSubKey) ⟨ERROR_SUCCESS, some 5⟩,
       .externalWrite (some v)]
    (freshState (some ⟨REG_DWORD, dwordBytes 1⟩))

/-- Module loaded with the feature off; the Advanced key is opened through the
hook as handle 7; the feature is then switched on and another writer stores 1. -/
def openedWhileDisabled : State :=
  run [.modInit ⟨0, saveOk, writeOk, true, allHooks⟩,
       .openHook HKEY_CURRENT_USER (some kAdvancedSubKey) ⟨ERROR_SUCCESS, some 7⟩,
       .settingsChanged ⟨1, saveOk, writeOk⟩,
       .externalWrite (some ⟨REG_DWORD, dwordBytes 1⟩)]
    (freshState (some ⟨REG_DWORD, dwordBytes 1⟩))

/-- Registry has no `TaskbarAl`; the module loads with the feature off and all
hooks installed. -/
def loadedWithoutValue : State :=
  Wh_ModInit ⟨0, saveOk, writeOk, true, allHooks⟩ (freshState none)

/-! ## Auxiliary lemmas -/

theorem writeDword_zero_low (m : Mem) (i : Nat) (hi : i < 4) : writeDword m 0 i = 0 := by
  simp [writeDword, hi]

theorem writeDword_high (m : Mem) (v i : Nat) (hi : 4 ≤ i) : writeDword m v i = m i := by
  have h : ¬ i < 4 := by omega
  simp [writeDword, h]

theorem readDword_writeDword_zero (m : Mem) : readDword (writeDword m 0) = 0 := by
  simp [readDword, writeDword]

theorem readDword_eq_zero (m : Mem) (h : readDword m = 0) (i : Nat) (hi : i < 4) : m i = 0 := by
  have h' : m 0 + 256 * m 1 + 65536 * m 2 + 16777216 * m 3 = (0 : Nat) := h
  have h0 : m 0 = 0 := by omega
  have h1 : m 1 = 0 := by omega
  have h2 : m 2 = 0 := by omega
  have h3 : m 3 = 0 := by omega
  have : i = 0 ∨ i = 1 ∨ i = 2 ∨ i = 3 := by omega
  rcases this with rfl | rfl | rfl | rfl <;> assumption

theorem override_lpType (b : ReadBufs) : (OverrideToLeftIfNeeded b).lpType = b.lpType := by
  unfold OverrideToLeftIfNeeded
  split
  · split
    · split <;> rfl
    · rfl
  · rfl

theorem override_lpcbData (b : ReadBufs) : (OverrideToLeftIfNeeded b).lpcbData = b.lpcbData := by
  unfold OverrideToLeftIfNeeded
  split
  · split
    · split <;> rfl
    · rfl
  · rfl

theorem override_applies (m : Mem) (cb : DWORD) (hcb : 4 ≤ cb) :
    ∃ m', (OverrideToLeftIfNeeded ⟨some REG_DWORD, some m, some cb⟩).lpData = some m' ∧
      readDword m' = 0 ∧ (∀ i, i < 4 → m' i = 0) ∧ (∀ i, 4 ≤ i → m' i = m i) := by
  by_cases h0 : readDword m = 0
  · refine ⟨m, ?_, h0, readDword_eq_zero m h0, fun _ _ => rfl⟩
    simp [OverrideToLeftIfNeeded, hcb, h0]
  · refine ⟨writeDword m 0, ?_, readDword_writeDword_zero m, writeDword_zero_low m,
      writeDword_high m 0⟩
    simp [OverrideToLeftIfNeeded, hcb, h0]

/-- C7. `OverrideToLeftIfNeeded` leaves the first four bytes of the buffer equal
to the DWORD 0 whenever the type tag is `REG_DWORD`, buffer and length pointers
are non-null and the reported length is at least 4; in every other case
(a null buffer with any length included) it modifies nothing; and it never
changes the type tag, the length, the nullness of the buffer or any byte
beyond the first four. -/
theorem C7_override_engine (b : ReadBufs) :
    ((b.lpType = some REG_DWORD ∧ b.lpData ≠ none ∧ (∃ cb, b.lpcbData = some cb ∧ 4 ≤ cb)) →
      ∃ m, (OverrideToLeftIfNeeded b).lpData = some m ∧ readDword m = 0 ∧
        ∀ i, i < 4 → m i = 0) ∧
    (¬ (b.lpType = some REG_DWORD ∧ b.lpData ≠ none ∧ (∃ cb, b.lpcbData = some cb ∧ 4 ≤ cb)) →
      OverrideToLeftIfNeeded b = b) ∧
    (b.lpData = none → OverrideToLeftIfNeeded b = b) ∧
    (OverrideToLeftIfNeeded b).lpType = b.lpType ∧
    (OverrideToLeftIfNeeded b).lpcbData = b.lpcbData ∧
    ((OverrideToLeftIfNeeded b).lpData = none ↔ b.lpData = none) ∧
    (∀ m m', b.lpData = some m → (OverrideToLeftIfNeeded b).lpData = some m' →
      ∀ i, 4 ≤ i → m' i = m i) := by
  obtain ⟨ty, data, cb⟩ := b
  refine ⟨?_, ?_, ?_, override_lpType _, override_lpcbData _, ?_, ?_⟩
  · rintro ⟨hty, hdata, c, hc, hle⟩
    simp only at hty hdata hc
    subst hty hc
    cases data with
    | none => exact absurd rfl hdata
    | some m =>
      obtain ⟨m', h1, h2, h3, _⟩ := override_applies m c hle
      exact ⟨m', h1, h2, h3⟩
  · intro hn
    cases ty with
    | none => rfl
    | some t =>
      cases data with
      | none => rfl
      | some m =>
        cases cb with
        | none => rfl
        | some c =>
          have hc : ¬ (t = REG_DWORD ∧ c ≥ 4) := by
            rintro ⟨rfl, hle⟩
            exact hn ⟨rfl, by simp, c, rfl, hle⟩
          simp [OverrideToLeftIfNeeded, hc]
  · intro hd
    simp only at hd
    subst hd
    cases ty <;> rfl
  · cases ty with
    | none => simp [OverrideToLeftIfNeeded]
    | some t =>
      cases data with
      | none => simp [OverrideToLeftIfNeeded]
      | some m =>
        cases cb with
        | none => simp [OverrideToLeftIfNeeded]
        | some c =>
          simp only [OverrideToLeftIfNeeded]
          split
          · split <;> simp
          · simp
  · intro m m' hm hm' i hi
    simp only at hm
    subst hm
    cases ty with
    | none =>
      have : m' = m := by simpa [OverrideToLeftIfNeeded] using hm'.symm
      rw [this]
    | some t =>
      cases cb with
      | none =>
        have : m' = m := by simpa [OverrideToLeftIfNeeded] using hm'.symm
        rw [this]
      | some c =>
        simp only [OverrideToLeftIfNeeded] at hm'
        split at hm'
        · split at hm'
          · have : m' = writeDword m 0 := by simpa using hm'.symm
            rw [this]
            exact writeDword_high m 0 i hi
          · have : m' = m := by simpa using hm'.symm
            rw [this]
        · have : m' = m := by simpa using hm'.symm
          rw [this]

/-- Witness for C7: a four-byte `REG_DWORD` read holding 7 comes back as 0. -/
theorem C7_override_engine_witness :
    ∃ m, (OverrideToLeftIfNeeded ⟨some REG_DWORD, some (fun _ => 7), some 4⟩).lpData = some m ∧
      readDword m = 0 ∧ ∀ i, i < 4 → m i = 0 :=
  (C7_override_engine ⟨some REG_DWORD, some (fun _ => 7), some 4⟩).1
    ⟨rfl, by simp, 4, rfl, le_refl 4⟩

/-! ## Interception layer: reads -/

theorem openHook_status (s : State) (hKey : HKEY) (k : Option WStr) (orig : OpenResult) :
    (RegOpenKeyExW_Hook s hKey k orig).1 = orig.status := by
  unfold RegOpenKeyExW_Hook
  split
  · split <;> rfl
  · rfl

/-- C2, as amended. With forceLeft enabled, a successful read of `TaskbarAl`
through `RegQueryValueExW_Hook` on a tracked handle, or through
`RegGetValueW_Hook` with `HKEY_CURRENT_USER`, the Advanced subkey and the field
name (whatever the tracked set holds), for which the caller passed non-null
type, data and length pointers and the original reported `REG_DWORD` with
length at least 4, returns 0 in the first four bytes, while status, type tag,
length and all later bytes are those of the original call. -/
theorem C2_active_override (s : State) (hKey : HKEY) (name sub : WStr) (m : Mem) (cb : DWORD)
    (hfl : s.forceLeft = true)
    (hname : IEquals name kTaskbarAlValue = true) (hsub : IEquals sub kAdvancedSubKey = true)
    (hcb : 4 ≤ cb) (r : ReadResult)
    (hr : (hKey ∈ s.g_advancedKeys ∧
            r = RegQueryValueExW_Hook s hKey (some name)
              ⟨ERROR_SUCCESS, ⟨some REG_DWORD, some m, some cb⟩⟩) ∨
          r = RegGetValueW_Hook s HKEY_CURRENT_USER (some sub) (some name)
            ⟨ERROR_SUCCESS, ⟨some REG_DWORD, some m, some cb⟩⟩) :
    r.status = ERROR_SUCCESS ∧ r.out.lpType = some REG_DWORD ∧ r.out.lpcbData = some cb ∧
      ∃ m', r.out.lpData = some m' ∧ readDword m' = 0 ∧ (∀ i, i < 4 → m' i = 0) ∧
        (∀ i, 4 ≤ i → m' i = m i) := by
  have key : r = ⟨ERROR_SUCCESS, OverrideToLeftIfNeeded ⟨some REG_DWORD, some m, some cb⟩⟩ := by
    rcases hr with ⟨htr, hr⟩ | hr
    · rw [hr]
      simp [RegQueryValueExW_Hook, IsAdvancedKey, hfl, htr, hname]
    · rw [hr]
      simp [RegGetValueW_Hook, hfl, hname, hsub]
  subst key
  exact ⟨rfl, override_lpType _, override_lpcbData _, override_applies m cb hcb⟩

/-- Witness for C2: a read by handle on the tracked handle 5, and a read by
path in a state whose tracked set is empty, both of a stored 7. -/
theorem C2_active_override_witness :
    ((RegQueryValueExW_Hook (enabledOpen ⟨REG_DWORD, dwordBytes 7⟩) 5
        (some kTaskbarAlValue) (dwordRead 7)).status = ERROR_SUCCESS ∧
      (RegQueryValueExW_Hook (enabledOpen ⟨REG_DWORD, dwordBytes 7⟩) 5
        (some kTaskbarAlValue) (dwordRead 7)).out.lpType = some REG_DWORD ∧
      (RegQueryValueExW_Hook (enabledOpen ⟨REG_DWORD, dwordBytes 7⟩) 5
        (some kTaskbarAlValue) (dwordRead 7)).out.lpcbData = some 4 ∧
      ∃ m', (RegQueryValueExW_Hook (enabledOpen ⟨REG_DWORD, dwordBytes 7⟩) 5
          (some kTaskbarAlValue) (dwordRead 7)).out.lpData = some m' ∧ readDword m' = 0 ∧
        (∀ i, i < 4 → m' i = 0) ∧ (∀ i, 4 ≤ i → m' i = writeDword (fun _ => 0) 7 i)) ∧
    ((enabledWith ⟨REG_DWORD, dwordBytes 7⟩).g_advancedKeys = ∅ ∧
      (RegGetValueW_Hook (enabledWith ⟨REG_DWORD, dwordBytes 7⟩) HKEY_CURRENT_USER
        (some kAdvancedSubKey) (some kTaskbarAlValue) (dwordRead 7)).status = ERROR_SUCCESS ∧
      (RegGetValueW_Hook (enabledWith ⟨REG_DWORD, dwordBytes 7⟩) HKEY_CURRENT_USER
        (some kAdvancedSubKey) (some kTaskbarAlValue) (dwordRead 7)).out.lpType
          = some REG_DWORD ∧
      (RegGetValueW_Hook (enabledWith ⟨REG_DWORD, dwordBytes 7⟩) HKEY_CURRENT_USER
        (some kAdvancedSubKey) (some kTaskbarAlValue) (dwordRead 7)).out.lpcbData = some 4 ∧
      ∃ m', (RegGetValueW_Hook (enabledWith ⟨REG_DWORD, dwordBytes 7⟩) HKEY_CURRENT_USER
          (some kAdvancedSubKey) (some kTaskbarAlValue) (dwordRead 7)).out.lpData = some m' ∧
        readDword m' = 0 ∧
        (∀ i, i < 4 → m' i = 0) ∧ (∀ i, 4 ≤ i → m' i = writeDword (fun _ => 0) 7 i)) :=
  ⟨C2_active_override (enabledOpen ⟨REG_DWORD, dwordBytes 7⟩) 5
      kTaskbarAlValue kAdvancedSubKey (writeDword (fun _ => 0) 7) 4
      (by decide) (by decide) (by decide) (by decide) _ (Or.inl ⟨by decide, rfl⟩),
   by decide,
   C2_active_override (enabledWith ⟨REG_DWORD, dwordBytes 7⟩) 5
      kTaskbarAlValue kAdvancedSubKey (writeDword (fun _ => 0) 7) 4
      (by decide) (by decide) (by decide) (by decide) _ (Or.inr rfl)⟩

/-- C2 fails as stated. With forceLeft enabled and 1 stored, a successful read
of `TaskbarAl` returns 1, not 0, (1) through a handle of the Advanced key that
was opened while the feature was off, (2) through `RegGetValueW_Hook` when the
caller passes a null type pointer; and a read through a tracked handle leaves
the data as stored (3) when the stored value is not a `REG_DWORD`, (4) when it
is shorter than four bytes. -/
theorem C2_counterexample :
    (openedWhileDisabled.forceLeft = true ∧
      (osQueryValue false openedWhileDisabled.taskbarAl dwordBufs).status = ERROR_SUCCESS ∧
      (RegQueryValueExW_Hook openedWhileDisabled 7 (some kTaskbarAlValue)
        (osQueryValue false openedWhileDisabled.taskbarAl dwordBufs)).out.lpData.map readDword
        = some 1) ∧
    ((enabledWith ⟨REG_DWORD, dwordBytes 1⟩).forceLeft = true ∧
      (osQueryValue false (enabledWith ⟨REG_DWORD, dwordBytes 1⟩).taskbarAl
        ⟨none, some (fun _ => 0), some 4⟩).status = ERROR_SUCCESS ∧
      (RegGetValueW_Hook (enabledWith ⟨REG_DWORD, dwordBytes 1⟩) HKEY_CURRENT_USER
        (some kAdvancedSubKey) (some kTaskbarAlValue)
        (osQueryValue false (enabledWith ⟨REG_DWORD, dwordBytes 1⟩).taskbarAl
          ⟨none, some (fun _ => 0), some 4⟩)).out.lpData.map readDword = some 1) ∧
    ((enabledOpen ⟨3, [1, 0, 0, 0]⟩).forceLeft = true ∧
      5 ∈ (enabledOpen ⟨3, [1, 0, 0, 0]⟩).g_advancedKeys ∧
      (osQueryValue false (enabledOpen ⟨3, [1, 0, 0, 0]⟩).taskbarAl dwordBufs).status
        = ERROR_SUCCESS ∧
      (RegQueryValueExW_Hook (enabledOpen ⟨3, [1, 0, 0, 0]⟩) 5 (some kTaskbarAlValue)
        (osQueryValue false (enabledOpen ⟨3, [1, 0, 0, 0]⟩).taskbarAl dwordBufs)).out.lpData.map
          readDword = some 1) ∧
    ((enabledOpen ⟨REG_DWORD, [1, 0]⟩).forceLeft = true ∧
      5 ∈ (enabledOpen ⟨REG_DWORD, [1, 0]⟩).g_advancedKeys ∧
      (osQueryValue false (enabledOpen ⟨REG_DWORD, [1, 0]⟩).taskbarAl dwordBufs).status
        = ERROR_SUCCESS ∧
      (RegQueryValueExW_Hook (enabledOpen ⟨REG_DWORD, [1, 0]⟩) 5 (some kTaskbarAlValue)
        (osQueryValue false (enabledOpen ⟨REG_DWORD, [1, 0]⟩).taskbarAl dwordBufs)).out.lpData.map
          readDword = some 1) := by
  decide

theorem closeKey_frame (s : State) (h : HKEY) (o : LSTATUS) :
    (RegCloseKey s h o).2.forceLeft = s.forceLeft ∧
    (RegCloseKey s h o).2.g_originalValue = s.g_originalValue ∧
    (RegCloseKey s h o).2.g_originalSaved = s.g_originalSaved ∧
    (RegCloseKey s h o).2.hooks = s.hooks ∧
    (RegCloseKey s h o).2.taskbarAl = s.taskbarAl ∧
    (RegCloseKey s h o).2.broadcasts = s.broadcasts ∧
    (RegCloseKey s h o).2.g_advancedKeys ⊆ s.g_advancedKeys := by
  unfold RegCloseKey RegCloseKey_Hook UntrackKey
  split_ifs <;> simp [Finset.erase_subset]

theorem closeHook_frame (s : State) (h : HKEY) (o : LSTATUS) :
    (RegCloseKey_Hook s h o).2.forceLeft = s.forceLeft ∧
    (RegCloseKey_Hook s h o).2.g_originalValue = s.g_originalValue ∧
    (RegCloseKey_Hook s h o).2.g_originalSaved = s.g_originalSaved ∧
    (RegCloseKey_Hook s h o).2.hooks = s.hooks ∧
    (RegCloseKey_Hook s h o).2.taskbarAl = s.taskbarAl ∧
    (RegCloseKey_Hook s h o).2.broadcasts = s.broadcasts := by
  unfold RegCloseKey_Hook UntrackKey
  split_ifs <;> simp

theorem openHook_frame (s : State) (h : HKEY) (k : Option WStr) (o : OpenResult) :
    (RegOpenKeyExW_Hook s h k o).2.forceLeft = s.forceLeft ∧
    (RegOpenKeyExW_Hook s h k o).2.g_originalValue = s.g_originalValue ∧
    (RegOpenKeyExW_Hook s h k o).2.g_originalSaved = s.g_originalSaved ∧
    (RegOpenKeyExW_Hook s h k o).2.hooks = s.hooks ∧
    (RegOpenKeyExW_Hook s h k o).2.taskbarAl = s.taskbarAl ∧
    (RegOpenKeyExW_Hook s h k o).2.broadcasts = s.broadcasts := by
  unfold RegOpenKeyExW_Hook TrackAdvancedKey
  split
  · split_ifs <;> simp
  · simp

theorem openKey_frame (s : State) (h : HKEY) (k : Option WStr) (o : OpenResult) :
    (RegOpenKeyExW s h k o).1 = o.status ∧
    (RegOpenKeyExW s h k o).2.forceLeft = s.forceLeft ∧
    (RegOpenKeyExW s h k o).2.g_originalValue = s.g_originalValue ∧
    (RegOpenKeyExW s h k o).2.g_originalSaved = s.g_originalSaved ∧
    (RegOpenKeyExW s h k o).2.hooks = s.hooks ∧
    (RegOpenKeyExW s h k o).2.taskbarAl = s.taskbarAl ∧
    (RegOpenKeyExW s h k o).2.broadcasts = s.broadcasts := by
  unfold RegOpenKeyExW
  split
  · exact ⟨openHook_status _ _ _ _, openHook_frame _ _ _ _⟩
  · simp

theorem write_frame (e : WriteEnv) (v : DWORD) (s : State) :
    (WriteTaskbarAlignment e v s).forceLeft = s.forceLeft ∧
    (WriteTaskbarAlignment e v s).g_originalValue = s.g_originalValue ∧
    (WriteTaskbarAlignment e v s).g_originalSaved = s.g_originalSaved ∧
    (WriteTaskbarAlignment e v s).hooks = s.hooks ∧
    (WriteTaskbarAlignment e v s).g_advancedKeys ⊆ s.g_advancedKeys := by
  unfold WriteTaskbarAlignment
  split
  · obtain ⟨h1, h2, h3, h4, _, _, h7⟩ :=
      closeKey_frame (osSetValue e.setStatus ⟨REG_DWORD, dwordBytes v⟩ s) e.hKey e.closeStatus
    simp only [RefreshTaskbarNow]
    refine ⟨?_, ?_, ?_, ?_, ?_⟩
    · rw [h1]; unfold osSetValue; split <;> rfl
    · rw [h2]; unfold osSetValue; split <;> rfl
    · rw [h3]; unfold osSetValue; split <;> rfl
    · rw [h4]; unfold osSetValue; split <;> rfl
    · refine h7.trans ?_
      unfold osSetValue; split <;> simp
  · simp

theorem write_stores (e : WriteEnv) (v : DWORD) (s : State)
    (hc : e.createStatus = ERROR_SUCCESS) (hs : e.setStatus = ERROR_SUCCESS) :
    (WriteTaskbarAlignment e v s).taskbarAl = some ⟨REG_DWORD, dwordBytes v⟩ := by
  unfold WriteTaskbarAlignment
  rw [if_pos hc]
  simp only [RefreshTaskbarNow]
  rw [(closeKey_frame _ _ _).2.2.2.2.1]
  simp [osSetValue, hs]

theorem save_noop (e : SaveEnv) (s : State) (h : s.g_originalSaved = true) :
    SaveOriginalIfNeeded e s = s := by
  simp [SaveOriginalIfNeeded, h]

theorem save_frame (e : SaveEnv) (s : State) :
    (SaveOriginalIfNeeded e s).forceLeft = s.forceLeft ∧
    (SaveOriginalIfNeeded e s).hooks = s.hooks ∧
    (SaveOriginalIfNeeded e s).taskbarAl = s.taskbarAl ∧
    (SaveOriginalIfNeeded e s).broadcasts = s.broadcasts := by
  unfold SaveOriginalIfNeeded
  obtain ⟨_, o1, _, _, o4, o5, o6⟩ :=
    openKey_frame s HKEY_CURRENT_USER (some kAdvancedSubKey) ⟨e.openStatus, some e.hKey⟩
  split
  · simp
  · simp only
    split
    · refine ⟨?_, ?_, ?_, ?_⟩
      · rw [(closeKey_frame _ _ _).1]; split <;> simp [o1]
      · rw [(closeKey_frame _ _ _).2.2.2.1]; split <;> simp [o4]
      · rw [(closeKey_frame _ _ _).2.2.2.2.1]; split <;> simp [o5]
      · rw [(closeKey_frame _ _ _).2.2.2.2.2.1]; split <;> simp [o6]
    · exact ⟨o1, o4, o5, o6⟩

theorem loadSettings_frame (v : Int) (s : State) :
    (LoadSettings v s).g_originalValue = s.g_originalValue ∧
    (LoadSettings v s).g_originalSaved = s.g_originalSaved ∧
    (LoadSettings v s).g_advancedKeys = s.g_advancedKeys ∧
    (LoadSettings v s).hooks = s.hooks ∧
    (LoadSettings v s).taskbarAl = s.taskbarAl :=
  ⟨rfl, rfl, rfl, rfl, rfl⟩

theorem settings_keeps_original (e : SettingsEnv) (s : State) (h : s.g_originalSaved = true) :
    (Wh_ModSettingsChanged e s).g_originalSaved = true ∧
    (Wh_ModSettingsChanged e s).g_originalValue = s.g_originalValue := by
  have hl : (LoadSettings e.setting s).g_originalSaved = true := h
  unfold Wh_ModSettingsChanged
  simp only
  split
  · rw [save_noop _ _ hl]
    obtain ⟨_, h2, h3, _⟩ := write_frame e.write 0 (LoadSettings e.setting s)
    exact ⟨h3.trans hl, h2⟩
  · obtain ⟨_, h2, h3, _⟩ :=
      write_frame e.write (LoadSettings e.setting s).g_originalValue (LoadSettings e.setting s)
    exact ⟨h3.trans hl, h2⟩

theorem init_keeps_original (e : InitEnv) (s : State) (h : s.g_originalSaved = true) :
    (Wh_ModInit e s).g_originalSaved = true ∧
    (Wh_ModInit e s).g_originalValue = s.g_originalValue := by
  have hl : (LoadSettings e.setting s).g_originalSaved = true := h
  unfold Wh_ModInit
  simp only
  rw [save_noop _ _ hl]
  obtain ⟨_, a2, a3, _⟩ := write_frame e.write 0 (LoadSettings e.setting s)
  obtain ⟨_, b2, b3, _⟩ :=
    write_frame e.write (LoadSettings e.setting s).g_originalValue (LoadSettings e.setting s)
  split <;> split <;> simp_all [LoadSettings]

theorem uninit_keeps_original (e : WriteEnv) (s : State) :
    (Wh_ModUninit e s).g_originalSaved = s.g_originalSaved ∧
    (Wh_ModUninit e s).g_originalValue = s.g_originalValue := by
  unfold Wh_ModUninit
  split
  · obtain ⟨_, h2, h3, _⟩ := write_frame e s.g_originalValue s
    exact ⟨h3, h2⟩
  · exact ⟨rfl, rfl⟩

theorem step_keeps_original (s : State) (ev : Event) (h : s.g_originalSaved = true) :
    (step s ev).g_originalSaved = true ∧ (step s ev).g_originalValue = s.g_originalValue := by
  cases ev with
  | saveOriginal e =>
    have hs : step s (.saveOriginal e) = s := save_noop e s h
    rw [hs]
    exact ⟨h, rfl⟩
  | writeAlignment e val =>
    obtain ⟨_, h2, h3, _⟩ := write_frame e val s
    exact ⟨h3.trans h, h2⟩
  | modInit e => exact init_keeps_original e s h
  | settingsChanged e => exact settings_keeps_original e s h
  | modUninit e =>
    obtain ⟨h1, h2⟩ := uninit_keeps_original e s
    exact ⟨h1.trans h, h2⟩
  | openHook hKey k orig =>
    obtain ⟨_, h2, h3, _⟩ := openHook_frame s hKey k orig
    exact ⟨h3.trans h, h2⟩
  | queryHook _ _ _ => exact ⟨h, rfl⟩
  | getHook _ _ _ _ => exact ⟨h, rfl⟩
  | closeHook hKey orig =>
    obtain ⟨_, h2, h3, _⟩ := closeHook_frame s hKey orig
    exact ⟨h3.trans h, h2⟩
  | externalWrite stored => exact ⟨h, rfl⟩

theorem run_keeps_original (evs : List Event) (s : State) (h : s.g_originalSaved = true) :
    (run evs s).g_originalSaved = true ∧ (run evs s).g_originalValue = s.g_originalValue := by
  induction evs generalizing s with
  | nil => exact ⟨h, rfl⟩
  | cons ev rest ih =>
    obtain ⟨h1, h2⟩ := step_keeps_original s ev h
    obtain ⟨h3, h4⟩ := ih (step s ev) h1
    exact ⟨h3, h4.trans h2⟩

/-! ## Original-value memory -/

/-- C4. Once `g_originalSaved` is true, no sequence of module operations
(`SaveOriginalIfNeeded`, `WriteTaskbarAlignment`, `Wh_ModInit`,
`Wh_ModSettingsChanged`, `Wh_ModUninit`), hook calls and changes of the stored
value by other writers changes `g_originalValue` or resets `g_originalSaved`. -/
theorem C4_idempotent_capture (evs : List Event) (s : State)
    (h : s.g_originalSaved = true) :
    (run evs s).g_originalSaved = true ∧ (run evs s).g_originalValue = s.g_originalValue :=
  run_keeps_original evs s h

/-- Witness for C4: value 2 captured at load survives enable, an outside write,
a further capture attempt, disable and a close. -/
theorem C4_idempotent_capture_witness :
    (run [.settingsChanged ⟨1, saveOk, writeOk⟩, .externalWrite (some ⟨REG_DWORD, dwordBytes 0⟩),
          .saveOriginal saveOk, .settingsChanged ⟨0, saveOk, writeOk⟩, .closeHook 5 0]
        (Wh_ModInit ⟨0, saveOk, writeOk, true, allHooks⟩
          (freshState (some ⟨REG_DWORD, dwordBytes 2⟩)))).g_originalSaved = true ∧
    (run [.settingsChanged ⟨1, saveOk, writeOk⟩, .externalWrite (some ⟨REG_DWORD, dwordBytes 0⟩),
          .saveOriginal saveOk, .settingsChanged ⟨0, saveOk, writeOk⟩, .closeHook 5 0]
        (Wh_ModInit ⟨0, saveOk, writeOk, true, allHooks⟩
          (freshState (some ⟨REG_DWORD, dwordBytes 2⟩)))).g_originalValue =
      (Wh_ModInit ⟨0, saveOk, writeOk, true, allHooks⟩
          (freshState (some ⟨REG_DWORD, dwordBytes 2⟩))).g_originalValue :=
  C4_idempotent_capture _ _ (by decide)

/-- C3. From any state in which the original value has been captured, after
any further sequence of events (settings-changed callbacks in particular),
`Wh_ModUninit` with a succeeding write leaves the captured value stored,
whatever forceLeft is at unload; and when nothing has been captured at unload
`Wh_ModUninit` changes nothing: no write, no broadcast. -/
theorem C3_restore_on_unload (evs : List Event) (s : State) (e : WriteEnv) :
    (s.g_originalSaved = true → e.createStatus = ERROR_SUCCESS →
      e.setStatus = ERROR_SUCCESS →
      (Wh_ModUninit e (run evs s)).taskbarAl = some ⟨REG_DWORD, dwordBytes s.g_originalValue⟩) ∧
    ((run evs s).g_originalSaved = false → Wh_ModUninit e (run evs s) = run evs s) := by
  constructor
  · intro h hc hs
    obtain ⟨h1, h2⟩ := run_keeps_original evs s h
    unfold Wh_ModUninit
    rw [if_pos h1, write_stores e _ _ hc hs, h2]
  · intro h
    simp [Wh_ModUninit, h]

/-- Witness for C3: value 2 captured at load, feature enabled then the stored
value changed by another writer; unloading stores 2 again. -/
theorem C3_restore_on_unload_witness :
    (Wh_ModUninit writeOk
      (run [.settingsChanged ⟨1, saveOk, writeOk⟩,
            .externalWrite (some ⟨REG_DWORD, dwordBytes 1⟩)]
        (Wh_ModInit ⟨0, saveOk, writeOk, true, allHooks⟩
          (freshState (some ⟨REG_DWORD, dwordBytes 2⟩))))).taskbarAl =
      some ⟨REG_DWORD, dwordBytes
        (Wh_ModInit ⟨0, saveOk, writeOk, true, allHooks⟩
          (freshState (some ⟨REG_DWORD, dwordBytes 2⟩))).g_originalValue⟩ :=
  (C3_restore_on_unload _ _ writeOk).1 (by decide) (by decide) (by decide)

/-! ## Lifecycle -/

theorem dword_bytes_sum (v : Nat) (hv : v < 4294967296) :
    v % 256 + 256 * (v / 256 % 256) + 65536 * (v / 65536 % 256) +
      16777216 * (v / 16777216 % 256) = v := by
  omega

theorem readDword_copy_dwordBytes (v : DWORD) (m : Mem) (hv : v < 4294967296) :
    readDword (copyBytes (dwordBytes v) m) = v := by
  simp only [readDword, copyBytes, dwordBytes, List.length_cons, List.length_nil]
  simp
  exact dword_bytes_sum v hv

theorem save_captures_unhooked (e : SaveEnv) (s : State) (v : DWORD)
    (hsaved : s.g_originalSaved = false) (ho : s.hooks.onOpen = false)
    (hq : s.hooks.onQuery = false) (hopen : e.openStatus = ERROR_SUCCESS)
    (hread : e.readFails = false) (hst : s.taskbarAl = some ⟨REG_DWORD, dwordBytes v⟩)
    (hv : v < 4294967296) :
    (SaveOriginalIfNeeded e s).g_originalSaved = true ∧
    (SaveOriginalIfNeeded e s).g_originalValue = v := by
  have hopenr : RegOpenKeyExW s HKEY_CURRENT_USER (some kAdvancedSubKey)
      ⟨e.openStatus, some e.hKey⟩ = (ERROR_SUCCESS, s) := by
    simp [RegOpenKeyExW, ho, hopen]
  have hquery : RegQueryValueExW s e.hKey (some kTaskbarAlValue)
      (osQueryValue e.readFails s.taskbarAl
        ⟨some REG_DWORD, some (writeDword (fun _ => 0) 1), some 4⟩) =
      ⟨ERROR_SUCCESS, ⟨some REG_DWORD,
        some (copyBytes (dwordBytes v) (writeDword (fun _ => 0) 1)), some 4⟩⟩ := by
    simp [RegQueryValueExW, hq, osQueryValue, hread, hst, dwordBytes]
  unfold SaveOriginalIfNeeded
  rw [if_neg (by simp [hsaved])]
  simp only [hopenr, hquery, if_true, and_self]
  rw [(closeKey_frame _ _ _).2.2.1, (closeKey_frame _ _ _).2.1]
  exact ⟨rfl, readDword_copy_dwordBytes v _ hv⟩

/-- C1. For a stored `REG_DWORD` value V in {0,1,2}, with the registry open and
read at load and the writes of the two settings changes succeeding, loading the
module (with forceLeft on or off), then enabling the feature (which stores 0)
and then disabling it leaves V stored. -/
theorem C1_round_trip (V : DWORD) (e0 : InitEnv) (e1 e2 : SettingsEnv)
    (hV : V = 0 ∨ V = 1 ∨ V = 2)
    (hopen0 : e0.save.openStatus = ERROR_SUCCESS) (hread0 : e0.save.readFails = false)
    (hon : e1.setting ≠ 0)
    (hcreate1 : e1.write.createStatus = ERROR_SUCCESS)
    (hset1 : e1.write.setStatus = ERROR_SUCCESS)
    (hoff : e2.setting = 0)
    (hcreate2 : e2.write.createStatus = ERROR_SUCCESS)
    (hset2 : e2.write.setStatus = ERROR_SUCCESS) :
    (Wh_ModSettingsChanged e1
        (Wh_ModInit e0 (freshState (some ⟨REG_DWORD, dwordBytes V⟩)))).forceLeft = true ∧
    (Wh_ModSettingsChanged e1
        (Wh_ModInit e0 (freshState (some ⟨REG_DWORD, dwordBytes V⟩)))).taskbarAl =
      some ⟨REG_DWORD, dwordBytes 0⟩ ∧
    (Wh_ModSettingsChanged e2 (Wh_ModSettingsChanged e1
        (Wh_ModInit e0 (freshState (some ⟨REG_DWORD, dwordBytes V⟩))))).forceLeft = false ∧
    (Wh_ModSettingsChanged e2 (Wh_ModSettingsChanged e1
        (Wh_ModInit e0 (freshState (some ⟨REG_DWORD, dwordBytes V⟩))))).taskbarAl =
      some ⟨REG_DWORD, dwordBytes V⟩ := by
  have hlt : V < 4294967296 := by
    rcases hV with h | h | h <;> rw [h] <;> decide
  have hcap := save_captures_unhooked e0.save
    (LoadSettings e0.setting (freshState (some ⟨REG_DWORD, dwordBytes V⟩))) V
    rfl rfl rfl hopen0 hread0 rfl hlt
  have hinit : (Wh_ModInit e0 (freshState (some ⟨REG_DWORD, dwordBytes V⟩))).g_originalSaved
        = true ∧
      (Wh_ModInit e0 (freshState (some ⟨REG_DWORD, dwordBytes V⟩))).g_originalValue = V := by
    unfold Wh_ModInit
    simp only
    obtain ⟨_, a2, a3, _⟩ := write_frame e0.write 0 (SaveOriginalIfNeeded e0.save
      (LoadSettings e0.setting (freshState (some ⟨REG_DWORD, dwordBytes V⟩))))
    obtain ⟨_, b2, b3, _⟩ := write_frame e0.write (SaveOriginalIfNeeded e0.save
      (LoadSettings e0.setting (freshState (some ⟨REG_DWORD, dwordBytes V⟩)))).g_originalValue
      (SaveOriginalIfNeeded e0.save
        (LoadSettings e0.setting (freshState (some ⟨REG_DWORD, dwordBytes V⟩))))
    split <;> split <;> simp_all
  obtain ⟨hs1, hv1⟩ := settings_keeps_original e1 _ hinit.1
  rw [hinit.2] at hv1
  have hfl1 : ∀ s, (LoadSettings e1.setting s).forceLeft = true := by
    intro s; simp [LoadSettings, hon]
  have hfl2 : ∀ s, (LoadSettings e2.setting s).forceLeft = false := by
    intro s; simp [LoadSettings, hoff]
  refine ⟨?_, ?_, ?_, ?_⟩
  · unfold Wh_ModSettingsChanged
    simp only [hfl1, if_true]
    rw [(write_frame _ _ _).1, (save_frame _ _).1, hfl1]
  · unfold Wh_ModSettingsChanged
    simp only [hfl1, if_true]
    exact write_stores _ _ _ hcreate1 hset1
  · generalize Wh_ModSettingsChanged e1 _ = s1 at hs1 hv1
    unfold Wh_ModSettingsChanged
    have hl : (LoadSettings e2.setting s1).g_originalSaved = true := hs1
    simp only [hfl2, hl, if_true, Bool.false_eq_true, if_false]
    rw [(write_frame _ _ _).1, hfl2]
  · generalize Wh_ModSettingsChanged e1 _ = s1 at hs1 hv1
    unfold Wh_ModSettingsChanged
    have hl : (LoadSettings e2.setting s1).g_originalSaved = true := hs1
    have hlv : (LoadSettings e2.setting s1).g_originalValue = V := hv1
    simp only [hfl2, hl, if_true, Bool.false_eq_true, if_false]
    rw [write_stores _ _ _ hcreate2 hset2, hlv]

/-- Witness for C1: V = 2, module loaded with the feature off, all hooks installed. -/
theorem C1_round_trip_witness :
    (Wh_ModSettingsChanged ⟨1, saveOk, writeOk⟩
        (Wh_ModInit ⟨0, saveOk, writeOk, true, allHooks⟩
          (freshState (some ⟨REG_DWORD, dwordBytes 2⟩)))).forceLeft = true ∧
    (Wh_ModSettingsChanged ⟨1, saveOk, writeOk⟩
        (Wh_ModInit ⟨0, saveOk, writeOk, true, allHooks⟩
          (freshState (some ⟨REG_DWORD, dwordBytes 2⟩)))).taskbarAl =
      some ⟨REG_DWORD, dwordBytes 0⟩ ∧
    (Wh_ModSettingsChanged ⟨0, saveOk, writeOk⟩ (Wh_ModSettingsChanged ⟨1, saveOk, writeOk⟩
        (Wh_ModInit ⟨0, saveOk, writeOk, true, allHooks⟩
          (freshState (some ⟨REG_DWORD, dwordBytes 2⟩))))).forceLeft = false ∧
    (Wh_ModSettingsChanged ⟨0, saveOk, writeOk⟩ (Wh_ModSettingsChanged ⟨1, saveOk, writeOk⟩
        (Wh_ModInit ⟨0, saveOk, writeOk, true, allHooks⟩
          (freshState (some ⟨REG_DWORD, dwordBytes 2⟩))))).taskbarAl =
      some ⟨REG_DWORD, dwordBytes 2⟩ :=
  C1_round_trip 2 ⟨0, saveOk, writeOk, true, allHooks⟩ ⟨1, saveOk, writeOk⟩
    ⟨0, saveOk, writeOk⟩ (by decide) (by decide) (by decide) (by decide) (by decide)
    (by decide) (by decide) (by decide) (by decide)


/-- C5. Registry without `TaskbarAl`, module loaded with the feature off and
hooks installed: the load stores the default 1 and captures nothing. When the
feature is then enabled, `SaveOriginalIfNeeded` reads through the module's own
hooks and records 0 while 1 is stored; disabling afterwards stores 0, not 1. -/
theorem C5_capture_reads_through_hooks :
    loadedWithoutValue.g_originalSaved = false ∧
    loadedWithoutValue.taskbarAl = some ⟨REG_DWORD, dwordBytes 1⟩ ∧
    (LoadSettings 1 loadedWithoutValue).taskbarAl = some ⟨REG_DWORD, dwordBytes 1⟩ ∧
    (SaveOriginalIfNeeded saveOk (LoadSettings 1 loadedWithoutValue)).g_originalSaved = true ∧
    (SaveOriginalIfNeeded saveOk (LoadSettings 1 loadedWithoutValue)).g_originalValue = 0 ∧
    (Wh_ModSettingsChanged ⟨1, saveOk, writeOk⟩ loadedWithoutValue).g_originalValue = 0 ∧
    (Wh_ModSettingsChanged ⟨0, saveOk, writeOk⟩
      (Wh_ModSettingsChanged ⟨1, saveOk, writeOk⟩ loadedWithoutValue)).taskbarAl =
        some ⟨REG_DWORD, dwordBytes 0⟩ := by
  decide

/-- C9. When `RegCreateKeyExW` succeeds and `RegSetValueExW` fails, the stored
value is unchanged and `WriteTaskbarAlignment` still broadcasts once. -/
theorem C9_broadcast_after_failed_set (s : State) (val : DWORD) (h : HKEY) (c : LSTATUS) :
    (WriteTaskbarAlignment ⟨ERROR_SUCCESS, h, ERROR_ACCESS_DENIED, c⟩ val s).taskbarAl
      = s.taskbarAl ∧
    (WriteTaskbarAlignment ⟨ERROR_SUCCESS, h, ERROR_ACCESS_DENIED, c⟩ val s).broadcasts
      = s.broadcasts + 1 := by
  unfold WriteTaskbarAlignment
  simp only [if_true, RefreshTaskbarNow]
  rw [(closeKey_frame _ _ _).2.2.2.2.1, (closeKey_frame _ _ _).2.2.2.2.2.1]
  constructor <;> rfl

end LeftyTaskbar
